import Mathlib

/-!
Verification of the session-lifecycle controller of the `speech_cn`
repository (source of authority: `src/src/App.jsx`).

The development shallowly embeds:
  * the `SpeechService` class state (`SvcState`) and its methods
    (`restartSession`, `stop`, the `canceled` / `sessionStopped` event
    handlers, the proactive-restart timer callback, `extractSpeakerId`);
  * the `App` component state that the service drives through callbacks
    (`AppState`, `applyEv`), in particular the speaker registry: the
    `speakers` JavaScript `Map` is modelled as an insertion-ordered
    association list `List (String × Nat)` (JS `Map` iterates and counts
    in insertion order and keys are unique), with `Map.size` modelled by
    `List.length` and `Map.get`/`Map.has` by ordered lookup.

Asynchrony is modelled by the order in which emitted callback events
appear in a trace (`List Ev`).  One modelling fact about JS semantics is
used throughout and recorded here once: `await this.start()` resumes as
soon as the body of `start()` returns — i.e. right after
`startTranscribingAsync(successCb, errorCb)` has been *invoked* — while
`successCb`/`errorCb` run strictly later, when the SDK completes the
network operation.  Hence events emitted after `await this.start()`
(such as `onSessionRestarted`) precede the events emitted from inside
`successCb` (such as `onSessionStarted`) in every execution, and the
deferred callback's events are placed at the end of the trace.
-/

/-- Substring test used to model JavaScript `String.prototype.includes`.
`startsWithChars s pat` holds when `pat` is an initial segment of `s`. -/
def startsWithChars : List Char → List Char → Bool
  | _, [] => true
  | [], _ :: _ => false
  | a :: as, b :: bs => a == b && startsWithChars as bs

/-- Does `pat` occur as a contiguous sublist of `s`? -/
def hasSubChars : List Char → List Char → Bool
  | [], pat => startsWithChars [] pat
  | a :: t, pat => startsWithChars (a :: t) pat || hasSubChars t pat

/-- Model of JavaScript `s.includes(pat)`. -/
def containsSub (s pat : String) : Bool := hasSubChars s.data pat.data

/-- JavaScript truthiness of an optional string: `undefined`/`null` and the
empty string are falsy, every other string is truthy. -/
def truthyStr : Option String → Bool
  | none => false
  | some s => s != ""

/-- Model of the JavaScript expression `a || b` on optional strings: `a`
when `a` is truthy, otherwise `b` (`none` models both `null` and
`undefined`). -/
def jsOr (a b : Option String) : Option String := if truthyStr a then a else b

/-! ## SpeechService state (fields of the class in `src/src/App.jsx`) -/

/-- Mutable fields of the `SpeechService` class.  Timer handles and SDK
resource handles are modelled by whether they are currently non-null. -/
structure SvcState where
  isRunning : Bool
  autoReconnectEnabled : Bool
  tokenRefreshArmed : Bool
  restartTimerArmed : Bool
  hasTranscriber : Bool
  hasAudioConfig : Bool
  hasSpeechConfig : Bool
  sessionStartTime : Option Nat
deriving Repr, DecidableEq

/-- Caller-visible callback invocations and connection-lifecycle markers,
in the order they are emitted. `oldConnectionClosed` marks the point where
`restartSession` has stopped and released the previous connection. -/
inductive Ev where
  | sessionStarted : Ev
  | sessionStoppedEv : Ev
  | sessionRestarting : String → Ev
  | sessionRestarted : Ev
  | sessionRestartFailed : String → Ev
  | errorEv : String → Ev
  | transcribedEv : String → Option String → Ev
  | oldConnectionClosed : Ev
deriving Repr, DecidableEq

/-- A restart scheduled through `setTimeout(() => this.restartSession(reason), delayMs)`. -/
structure Scheduled where
  reason : String
  delayMs : Nat
deriving Repr, DecidableEq

/-- Outcome of the environment (network / SDK) during one `start()` attempt:
whether the token fetch succeeds (and its error message when it does not),
whether `startTranscribingAsync` confirms the connection (and the error it
reports when it does not), and the wall-clock time `Date.now()` at which the
connection-open confirmation runs. -/
structure Env where
  tokenOk : Bool
  tokenErrMsg : String
  connectOk : Bool
  connectErrMsg : String
  now : Nat
deriving Repr, DecidableEq

/-- Restart reason used by the proactive-restart timer callback. -/
def restartReasonProactive : String := "会话即将超时（19分钟），主动重启"

/-- Restart reason used by the `canceled` handler on a timeout-like error. -/
def restartReasonTimeout : String := "检测到超时错误，自动重连"

/-- Restart reason used by the `sessionStopped` handler. -/
def restartReasonStopped : String := "会话停止（可能是超时），自动重连"

/-- Message of the error thrown by `getAuthorizationToken` on failure. -/
def tokenFailMsg (env : Env) : String := "获取token失败: " ++ env.tokenErrMsg

/-- `start()` (lines 146–218 of `src/src/App.jsx`).  Returns the final
state, the trace of emitted events — with the deferred
`startTranscribingAsync` completion callback's events at the end — and a
flag recording whether `start()` threw (it rethrows a token-fetch failure
after setting `isRunning = false`). -/
def serviceStart (st : SvcState) (env : Env) : SvcState × List Ev × Bool :=
  if st.isRunning then (st, [], false)
  else if env.tokenOk = false then
    ({st with isRunning := false}, [], true)
  else
    let st1 : SvcState :=
      {st with hasSpeechConfig := true, hasAudioConfig := true, hasTranscriber := true}
    if env.connectOk then
      ({st1 with isRunning := true, sessionStartTime := some env.now,
                 tokenRefreshArmed := true,
                 restartTimerArmed := st1.autoReconnectEnabled},
       [Ev.sessionStarted], false)
    else
      ({st1 with isRunning := false},
       [Ev.errorEv ("启动失败: " ++ env.connectErrMsg)], false)

/-- `restartSession(reason)` (lines 92–144 of `src/src/App.jsx`).
Guard: returns immediately unless `isRunning && autoReconnectEnabled`.
Otherwise: emits `onSessionRestarting`, clears `isRunning`, cancels both
timers, gracefully stops and releases the old connection (keeping the
`speechConfig` reference, per the source comment), calls `start()` again,
and emits `onSessionRestarted` once `start()` resolves — which is before
the deferred connection-open confirmation runs (see the header note); on a
`start()` throw it emits `onSessionRestartFailed` and `onError`. -/
def restartSession (st : SvcState) (env : Env) (reason : String) :
    SvcState × List Ev :=
  if !(st.isRunning && st.autoReconnectEnabled) then (st, [])
  else
    let σ1 : SvcState :=
      {st with isRunning := false, tokenRefreshArmed := false, restartTimerArmed := false}
    let σ2 : SvcState := {σ1 with hasTranscriber := false, hasAudioConfig := false}
    let r := serviceStart σ2 env
    if r.2.2 then
      (r.1, [Ev.sessionRestarting reason, Ev.oldConnectionClosed,
             Ev.sessionRestartFailed (tokenFailMsg env),
             Ev.errorEv ("重启会话失败: " ++ tokenFailMsg env)])
    else
      (r.1, Ev.sessionRestarting reason :: Ev.oldConnectionClosed ::
            Ev.sessionRestarted :: r.2.1)

/-- The service states at the suspension points inside a restart that has
passed its entry guard: while awaiting `stopTranscribingAsync` of the old
connection, after releasing the old resources (awaiting the token fetch
inside `start()`), and after `startTranscribingAsync` has been invoked but
before its completion callback has run. -/
def restartMidStates (st : SvcState) : List SvcState :=
  let σ1 : SvcState :=
    {st with isRunning := false, tokenRefreshArmed := false, restartTimerArmed := false}
  let σ2 : SvcState := {σ1 with hasTranscriber := false, hasAudioConfig := false}
  let σ3 : SvcState :=
    {σ2 with hasSpeechConfig := true, hasAudioConfig := true, hasTranscriber := true}
  [σ1, σ2, σ3]

/-- The proactive-restart timer callback (lines 77–82 of `src/src/App.jsx`):
fires `restartSession` only when still running with auto-reconnect enabled. -/
def proactiveTimerFire (st : SvcState) (env : Env) : SvcState × List Ev :=
  if st.isRunning && st.autoReconnectEnabled then
    restartSession st env restartReasonProactive
  else (st, [])

/-- Classification of a cancellation's `errorDetails` as timeout-like
(the `isTimeoutError` variable, lines 252–255 of `src/src/App.jsx`). -/
def isTimeoutError (d : String) : Bool :=
  containsSub d "StatusCode: 0" || containsSub d "Unable to contact server" ||
    containsSub d "StatusCode:0"

/-- The `canceled` event handler (lines 246–273 of `src/src/App.jsx`).
Returns the new state, the emitted callbacks, and the restart scheduled via
`setTimeout` (if any). -/
def canceledHandler (st : SvcState) (d : String) :
    SvcState × List Ev × Option Scheduled :=
  let wasRunning := st.isRunning
  let st1 : SvcState := {st with isRunning := false}
  if containsSub d "StatusCode: 1006" then
    (st1, [Ev.errorEv ("识别错误: " ++ d ++
       "\n提示: WebSocket 连接失败，请检查网络连接、Token有效性和防火墙设置")], none)
  else if isTimeoutError d then
    if st.autoReconnectEnabled && wasRunning then
      (st1, [], some ⟨restartReasonTimeout, 1000⟩)
    else
      (st1, [Ev.errorEv ("识别错误: " ++ d ++
         "\n提示: 会话超时（通常发生在20分钟后）")], none)
  else
    (st1, [Ev.errorEv ("识别错误: " ++ d)], none)

/-- Elapsed-duration threshold of the `sessionStopped` handler
(`18 * 60 * 1000` milliseconds). -/
def stopTimeoutThresholdMs : Nat := 18 * 60 * 1000

/-- The `sessionStopped` event handler (lines 275–301 of `src/src/App.jsx`). -/
def sessionStoppedHandler (st : SvcState) (now : Nat) :
    SvcState × List Ev × Option Scheduled :=
  let wasRunning := st.isRunning
  let st1 : SvcState := {st with isRunning := false}
  if st.autoReconnectEnabled && wasRunning then
    let sessionDuration :=
      match st.sessionStartTime with
      | some t => now - t
      | none => 0
    if stopTimeoutThresholdMs ≤ sessionDuration then
      (st1, [], some ⟨restartReasonStopped, 1000⟩)
    else
      (st1, [Ev.sessionStoppedEv], none)
  else
    (st1, [Ev.sessionStoppedEv], none)

/-- `stop()` (lines 325–343 of `src/src/App.jsx`): cancels both timers,
disables auto-reconnect, stops the transcriber, closes and nulls all
resource references, and clears `sessionStartTime`.  (`isRunning` is only
cleared inside the asynchronous `stopTranscribingAsync` acknowledgement,
so the synchronous part leaves it untouched.) -/
def serviceStop (st : SvcState) : SvcState :=
  { st with tokenRefreshArmed := false, restartTimerArmed := false,
            autoReconnectEnabled := false,
            hasTranscriber := false, hasAudioConfig := false,
            hasSpeechConfig := false,
            sessionStartTime := none }

/-! ## Speaker registry and App component state (`App` in `src/src/App.jsx`) -/

/-- Model of `speakers.has(k)` on the insertion-ordered association list. -/
def mapHas (m : List (String × Nat)) (k : String) : Bool :=
  m.any (fun p => p.1 == k)

/-- Model of `speakers.get(k)`. -/
def mapGet (m : List (String × Nat)) (k : String) : Option Nat :=
  (m.find? (fun p => p.1 == k)).map (fun p => p.2)

/-- The registry update performed by `onTranscribed` (lines 465–469 of
`src/src/App.jsx`): a truthy, previously unseen `speakerId` is inserted
with display number `newSpeakers.size + 1`; otherwise the map is kept. -/
def updateSpeakers (m : List (String × Nat)) (sid : Option String) :
    List (String × Nat) :=
  match sid with
  | none => m
  | some s =>
    if (s != "") && !(mapHas m s) then m ++ [(s, m.length + 1)] else m

/-- The display label `说话人-<n>` for display number `n`. -/
def spkName (n : Nat) : String := "说话人-" ++ toString n

/-- The label computation of `onTranscribed` (lines 471–472):
`speakerNum ? "说话人-" + speakerNum : "Unknown"` after looking the id up
in the updated map (a JS number `0` would be falsy, hence the `n != 0`). -/
def speakerLabel (m : List (String × Nat)) (sid : Option String) : String :=
  let n : Option Nat :=
    match sid with
    | none => none
    | some s => mapGet m s
  match n with
  | some k => if k != 0 then spkName k else "Unknown"
  | none => "Unknown"

/-- One `onTranscribed(text, speakerId)` step as it affects the registry:
update the map, then label the event from the updated map. -/
def onTranscribedStep (m : List (String × Nat)) (sid : Option String) :
    List (String × Nat) × String :=
  let m2 := updateSpeakers m sid
  (m2, speakerLabel m2 sid)

/-- React state of the `App` component that the service callbacks mutate
(the transcription and event log lists are tracked by length only). -/
structure AppState where
  svc : SvcState
  speakers : List (String × Nat)
  isListening : Bool
  isSessionStarted : Bool
  errMsg : Option String
  eventsCount : Nat
deriving Repr, DecidableEq

/-- Effect of one emitted service callback on the `App` state, following
the callback table passed to `new SpeechService({...})` (lines 437–561 of
`src/src/App.jsx`).  `oldConnectionClosed` is an internal marker with no
caller-visible effect. -/
def applyEv (app : AppState) (e : Ev) : AppState :=
  match e with
  | Ev.sessionStarted =>
      {app with isSessionStarted := true, eventsCount := app.eventsCount + 1}
  | Ev.sessionStoppedEv =>
      {app with isSessionStarted := false, eventsCount := app.eventsCount + 1}
  | Ev.sessionRestarting _ =>
      {app with isSessionStarted := false, eventsCount := app.eventsCount + 1}
  | Ev.sessionRestarted =>
      {app with eventsCount := app.eventsCount + 1}
  | Ev.sessionRestartFailed _ =>
      {app with eventsCount := app.eventsCount + 1}
  | Ev.errorEv m =>
      {app with errMsg := some m, isListening := false,
                isSessionStarted := false, eventsCount := app.eventsCount + 1}
  | Ev.transcribedEv _ sid =>
      {app with speakers := updateSpeakers app.speakers sid,
                eventsCount := app.eventsCount + 1}
  | Ev.oldConnectionClosed => app

/-- A full `restartSession` call as observed from the `App` component:
run the service method and apply every emitted callback to the UI state. -/
def restartApp (app : AppState) (env : Env) (reason : String) : AppState :=
  let r := restartSession app.svc env reason
  { (r.2.foldl applyEv app) with svc := r.1 }

/-- `handleStop` (lines 579–583 of `src/src/App.jsx`): `stop()` the
service, then clear the listening flags.  The `speakers` state is not
touched. -/
def handleStop (app : AppState) : AppState :=
  { app with svc := serviceStop app.svc, isListening := false,
             isSessionStarted := false }

/-- `handleClear` (lines 585–590 of `src/src/App.jsx`): clears the
transcriptions, the speaker registry and the event log. -/
def handleClear (app : AppState) : AppState :=
  { app with speakers := [], eventsCount := 0 }

/-! ## Speaker-id extraction (`extractSpeakerId`, lines 304–323) -/

/-- The four speaker-identifier fields a heterogeneous result payload may
carry (each missing or present, and possibly the falsy empty string). -/
structure SpkFields where
  SpeakerId : Option String
  UserId : Option String
  speakerId : Option String
  userId : Option String
deriving Repr, DecidableEq

/-- Outcome of `JSON.parse(result.json)`: either the parse throws, or it
produces an object whose relevant fields are recorded. -/
inductive JsonParse where
  | unparsable : JsonParse
  | obj : SpkFields → JsonParse
deriving Repr, DecidableEq

/-- A recognition result object, as far as `extractSpeakerId` inspects it:
first-class `userId`/`speakerId` fields, an optional (truthy) `json`
string together with its parse outcome, and an optional `privResult`. -/
structure RecResult where
  userId : Option String
  speakerId : Option String
  json : Option JsonParse
  privResult : Option SpkFields
deriving Repr, DecidableEq

/-- The chain `json.SpeakerId || json.UserId || json.speakerId || json.userId || null`. -/
def jsonChain (j : SpkFields) : Option String :=
  jsOr j.SpeakerId (jsOr j.UserId (jsOr j.speakerId (jsOr j.userId none)))

/-- The chain `priv.SpeakerId || priv.speakerId || priv.UserId || priv.userId || null`. -/
def privChain (p : SpkFields) : Option String :=
  jsOr p.SpeakerId (jsOr p.speakerId (jsOr p.UserId (jsOr p.userId none)))

/-- `extractSpeakerId(result)` (lines 304–323 of `src/src/App.jsx`):
first-class fields first; else, when a truthy `json` string is present,
its parsed fields decide (a parse throw is caught and yields `null`);
else, when `privResult` is present, its fields decide; else `null`. -/
def extractSpeakerId (r : RecResult) : Option String :=
  if truthyStr r.userId || truthyStr r.speakerId then jsOr r.userId r.speakerId
  else
    match r.json with
    | some JsonParse.unparsable => none
    | some (JsonParse.obj j) => jsonChain j
    | none =>
      match r.privResult with
      | some p => privChain p
      | none => none

/-! ## Concrete demo inputs and trace statistics -/

/-- Recognizer of the `onSessionStarted` event in a trace. -/
def isStartedEv : Ev → Bool
  | Ev.sessionStarted => true
  | _ => false

/-- Number of `Starting → Active` transitions (connection-open
confirmations, i.e. `onSessionStarted` emissions) in a trace. -/
def countStarted (tr : List Ev) : Nat := (tr.filter isStartedEv).length

/-- A concrete running app state with one registered speaker, used to
examine `handleStop`. -/
def stopDemoApp : AppState :=
  { svc := ⟨true, true, true, true, true, true, true, some 0⟩,
    speakers := [("spk-a", 1)],
    isListening := true, isSessionStarted := true,
    errMsg := none, eventsCount := 5 }

/-- A concrete active service state with auto-reconnect enabled. -/
def flightState : SvcState := ⟨true, true, true, true, true, true, true, some 0⟩

/-- A benign environment: token fetch and connection open both succeed. -/
def flightEnv : Env := ⟨true, "", true, "", 2000⟩

/-- The first suspension-point state of a restart from `flightState`. -/
def flightMid1 : SvcState :=
  {flightState with isRunning := false, tokenRefreshArmed := false,
                    restartTimerArmed := false}

/-- Cancellation details carrying both a timeout-like signature
(`Unable to contact server`) and the WebSocket-failure signature
(`StatusCode: 1006`). -/
def mixedDetails : String := "Unable to contact server. StatusCode: 1006"

/-- Cancellation details carrying only a timeout-like signature. -/
def timeoutDetails : String := "Unable to contact server"

/-- A parsed JSON payload carrying no speaker-identifier field. -/
def noneFields : SpkFields := ⟨none, none, none, none⟩

/-- A `privResult` whose `SpeakerId` field does carry an identifier. -/
def privDemo : SpkFields :=
  { SpeakerId := some "Guest-9", UserId := none, speakerId := none,
    userId := none }

/-- A result with no first-class speaker fields, a parseable `json`
payload without identifier fields, and a `privResult` that has one. -/
def jsonShadowRes : RecResult :=
  { userId := none, speakerId := none,
    json := some (JsonParse.obj noneFields), privResult := some privDemo }

/-! ## Helper lemmas -/

/-- `restartSession` on a state that is not running, or whose
auto-reconnect is disabled, is a strict no-op (the entry guard). -/
theorem restart_noop_helper (st : SvcState) (env : Env) (reason : String)
    (h : st.isRunning = false ∨ st.autoReconnectEnabled = false) :
    restartSession st env reason = (st, []) := by
  unfold restartSession
  rcases h with h | h <;> simp [h]

/-- Looking up a key that was just appended to a map not containing it. -/
theorem mapGet_append_new (m : List (String × Nat)) (s : String) (n : Nat)
    (h : mapHas m s = false) : mapGet (m ++ [(s, n)]) s = some n := by
  induction m with
  | nil => simp [mapGet, List.find?]
  | cons hd t ih =>
    simp only [mapHas, List.any_cons, Bool.or_eq_false_iff] at h
    simp only [mapGet, List.cons_append, List.find?, h.1]
    exact ih h.2

/-- `applyEv` can change the `speakers` field only on a `transcribedEv`. -/
theorem applyEv_speakers (app : AppState) (e : Ev)
    (h : ∀ t sid, e ≠ Ev.transcribedEv t sid) :
    (applyEv app e).speakers = app.speakers := by
  cases e <;> simp [applyEv] at h ⊢

/-- Folding `applyEv` over a trace without `transcribedEv` events leaves
the speaker registry unchanged. -/
theorem foldl_applyEv_speakers (tr : List Ev) (app : AppState)
    (h : ∀ e ∈ tr, ∀ t sid, e ≠ Ev.transcribedEv t sid) :
    (tr.foldl applyEv app).speakers = app.speakers := by
  induction tr generalizing app with
  | nil => rfl
  | cons e t ih =>
    rw [List.foldl_cons, ih _ (fun x hx => h x (List.mem_cons_of_mem e hx)),
      applyEv_speakers app e (h e (List.mem_cons_self e t))]

/-! ## Claim theorems -/

/-- C8: a final transcription event whose speaker id is null/absent
allocates no sequence number — the registry (all known ids and their
display numbers) is unchanged — and the event is labelled with the
constant unknown label, for every registry contents. -/
theorem unknown_speaker_no_alloc (m : List (String × Nat)) :
    onTranscribedStep m none = (m, "Unknown") := rfl

/-- C10: `restartSession` called when the service is not running, or when
auto-reconnect is disabled, returns at the entry guard as a strict no-op:
the state (timers, resources, flags) is unchanged and no callback event is
emitted. -/
theorem restart_guard_noop (st : SvcState) (env : Env) (reason : String)
    (h : st.isRunning = false ∨ st.autoReconnectEnabled = false) :
    restartSession st env reason = (st, []) :=
  restart_noop_helper st env reason h

/-- Witness for `restart_guard_noop` at a concrete stopped state. -/
theorem restart_guard_noop_witness :
    restartSession ⟨false, true, false, false, false, false, false, none⟩
        ⟨true, "", true, "", 5⟩ "reason" =
      (⟨false, true, false, false, false, false, false, none⟩, []) :=
  restart_guard_noop _ _ _ (Or.inl rfl)

/-- C6: the `sessionStopped` handler, arriving while the service is
running (`isRunning = true`, which also means no restart is in flight,
since an in-flight restart holds `isRunning = false`) with auto-reconnect
enabled, schedules a delayed restart and suppresses `onSessionStopped`
exactly when the elapsed wall-clock duration since session start reaches
the 18-minute threshold; below the threshold it emits `onSessionStopped`
and schedules nothing. -/
theorem stopped_timeout_heuristic (st : SvcState) (now t0 : Nat)
    (hr : st.isRunning = true) (ha : st.autoReconnectEnabled = true)
    (ht : st.sessionStartTime = some t0) :
    (sessionStoppedHandler st now =
        ({st with isRunning := false}, [], some ⟨restartReasonStopped, 1000⟩)
      ↔ stopTimeoutThresholdMs ≤ now - t0) ∧
    (now - t0 < stopTimeoutThresholdMs →
      sessionStoppedHandler st now =
        ({st with isRunning := false}, [Ev.sessionStoppedEv], none)) := by
  unfold sessionStoppedHandler
  rw [hr, ha, ht]
  by_cases hd : stopTimeoutThresholdMs ≤ now - t0
  · simp [hd]
  · simp [hd, Nat.lt_of_not_le hd]

/-- Witness for `stopped_timeout_heuristic`: a session started at time 0
receiving `sessionStopped` at 19 minutes is self-healed. -/
theorem stopped_timeout_heuristic_witness :
    sessionStoppedHandler
        ⟨true, true, true, true, true, true, true, some 0⟩ 1140000 =
      ({ isRunning := false, autoReconnectEnabled := true,
         tokenRefreshArmed := true, restartTimerArmed := true,
         hasTranscriber := true, hasAudioConfig := true,
         hasSpeechConfig := true, sessionStartTime := some 0 },
       [], some ⟨restartReasonStopped, 1000⟩) :=
  ((stopped_timeout_heuristic
      ⟨true, true, true, true, true, true, true, some 0⟩ 1140000 0
      rfl rfl rfl).1).mpr (by decide)

/-- C5 counterexample: `stop()` does **not** reset the speaker registry.
Stopping a running app that has one registered speaker leaves that
`(opaqueId → displayNumber)` record in place — the registry is not empty
after `stop()` returns, contradicting the claim. -/
theorem stop_keeps_registry_counterexample :
    (handleStop stopDemoApp).speakers = [("spk-a", 1)] ∧
    (handleStop stopDemoApp).speakers ≠ [] ∧
    (handleStop stopDemoApp).svc.autoReconnectEnabled = false := by
  decide

/-- C5 amended: `stop()` cancels both timers, disables auto-reconnect and
releases the connection resources, but leaves the speaker registry
untouched; the registry is cleared only by the explicit clear action
(`handleClear`). -/
theorem stop_effects (app : AppState) :
    (handleStop app).speakers = app.speakers ∧
    (handleStop app).svc.tokenRefreshArmed = false ∧
    (handleStop app).svc.restartTimerArmed = false ∧
    (handleStop app).svc.autoReconnectEnabled = false ∧
    (handleStop app).svc.hasTranscriber = false ∧
    (handleStop app).svc.hasAudioConfig = false ∧
    (handleStop app).svc.hasSpeechConfig = false ∧
    (handleStop app).svc.sessionStartTime = none ∧
    (handleClear app).speakers = [] := by
  simp [handleStop, handleClear, serviceStop]

/-- C3: starting from an empty registry, three previously-unseen distinct
(truthy) speaker ids receive display numbers 1, 2, 3 in order of first
appearance (each number is the count of known ids plus one), a later event
carrying the first id is labelled with display number 1 again and consumes
no new slot, and in general a final event for an already-known id never
changes the registry. -/
theorem speakers_first_come_first_served (a b c : String)
    (ha : a ≠ "") (hb : b ≠ "") (hc : c ≠ "")
    (hab : a ≠ b) (hac : a ≠ c) (hbc : b ≠ c) :
    onTranscribedStep [] (some a) = ([(a, 1)], spkName 1) ∧
    onTranscribedStep [(a, 1)] (some b) = ([(a, 1), (b, 2)], spkName 2) ∧
    onTranscribedStep [(a, 1), (b, 2)] (some c) =
      ([(a, 1), (b, 2), (c, 3)], spkName 3) ∧
    onTranscribedStep [(a, 1), (b, 2), (c, 3)] (some a) =
      ([(a, 1), (b, 2), (c, 3)], spkName 1) ∧
    (∀ (m : List (String × Nat)) (s : String), mapHas m s = true →
      (onTranscribedStep m (some s)).1 = m) := by
  have hba : b ≠ a := hab.symm
  have hca : c ≠ a := hac.symm
  have hcb : c ≠ b := hbc.symm
  have hbcB : (b == c) = false := by simp [hbc]
  have habB : (a == b) = false := by simp [hab]
  have hacB : (a == c) = false := by simp [hac]
  refine ⟨?_, ?_, ?_, ?_, ?_⟩
  · simp [onTranscribedStep, updateSpeakers, mapHas, mapGet, speakerLabel,
      List.find?, ha]
  · simp [onTranscribedStep, updateSpeakers, mapHas, mapGet, speakerLabel,
      List.find?, hb, hba, hab]
  · simp [onTranscribedStep, updateSpeakers, mapHas, mapGet, speakerLabel,
      List.find?, hc, hca, hcb, hac, hbc, hbcB, habB, hacB]
  · simp [onTranscribedStep, updateSpeakers, mapHas, mapGet, speakerLabel,
      List.find?, ha]
  · intro m s hm
    simp [onTranscribedStep, updateSpeakers, hm]

/-- Witness for `speakers_first_come_first_served` at the concrete id
sequence `"Guest-1", "Guest-2", "Guest-3"`. -/
theorem speakers_first_come_first_served_witness :
    onTranscribedStep [] (some "Guest-1") = ([("Guest-1", 1)], spkName 1) ∧
    onTranscribedStep [("Guest-1", 1), ("Guest-2", 2), ("Guest-3", 3)]
        (some "Guest-1") =
      ([("Guest-1", 1), ("Guest-2", 2), ("Guest-3", 3)], spkName 1) := by
  have h := speakers_first_come_first_served "Guest-1" "Guest-2" "Guest-3"
    (by decide) (by decide) (by decide) (by decide) (by decide) (by decide)
  exact ⟨h.1, h.2.2.2.1⟩

/-- A restart's emitted trace never contains a transcription event. -/
theorem restart_trace_no_transcribe (st : SvcState) (env : Env)
    (reason : String) :
    ∀ e ∈ (restartSession st env reason).2, ∀ t sid,
      e ≠ Ev.transcribedEv t sid := by
  intro e he t sid
  unfold restartSession serviceStart at he
  cases hg : st.isRunning && st.autoReconnectEnabled with
  | false => simp [hg] at he
  | true =>
    cases htok : env.tokenOk with
    | false =>
      simp [hg, htok] at he
      rcases he with h | h | h | h <;> subst h <;> simp
    | true =>
      cases hcon : env.connectOk with
      | false =>
        simp [hg, htok, hcon] at he
        rcases he with h | h | h | h <;> subst h <;> simp
      | true =>
        simp [hg, htok, hcon] at he
        rcases he with h | h | h | h <;> subst h <;> simp

/-- C4: a `restartSession` call — whatever the environment does — leaves
every `(opaqueId → displayNumber)` pairing of the speaker registry exactly
as it was, and an id first seen after the restart receives the next
sequential display number, continuing from before the restart. -/
theorem restart_preserves_registry (app : AppState) (env : Env)
    (reason : String) (s : String) (hs : s ≠ "")
    (hnew : mapHas app.speakers s = false) :
    (restartApp app env reason).speakers = app.speakers ∧
    (onTranscribedStep (restartApp app env reason).speakers (some s)).1 =
      app.speakers ++ [(s, app.speakers.length + 1)] ∧
    (onTranscribedStep (restartApp app env reason).speakers (some s)).2 =
      spkName (app.speakers.length + 1) := by
  have hframe : (restartApp app env reason).speakers = app.speakers := by
    unfold restartApp
    exact foldl_applyEv_speakers _ _ (restart_trace_no_transcribe app.svc env reason)
  refine ⟨hframe, ?_, ?_⟩
  · rw [hframe]
    simp [onTranscribedStep, updateSpeakers, hs, hnew]
  · rw [hframe]
    simp [onTranscribedStep, updateSpeakers, speakerLabel, hs, hnew,
      mapGet_append_new app.speakers s _ hnew, spkName]

/-- Witness for `restart_preserves_registry`: a registry with one speaker
survives a restart and the next id gets display number 2. -/
theorem restart_preserves_registry_witness :
    (restartApp stopDemoApp flightEnv "r").speakers = [("spk-a", 1)] ∧
    (onTranscribedStep (restartApp stopDemoApp flightEnv "r").speakers
        (some "spk-b")).1 = [("spk-a", 1), ("spk-b", 2)] := by
  have h := restart_preserves_registry stopDemoApp flightEnv "r" "spk-b"
    (by decide) (by decide)
  exact ⟨h.1, h.2.1⟩

/-- C2: once a restart has passed its entry guard, `isRunning` is `false`
at every suspension point until the new connection confirms; therefore a
second restart trigger arriving mid-restart — a re-entrant
`restartSession` call, the proactive-restart timer callback, or the
`canceled` handler — neither changes the state, nor emits events, nor
schedules another restart; and the whole restart produces at most one
`Starting → Active` transition (one `onSessionStarted`). -/
theorem restart_single_flight (st : SvcState) (env : Env) (reason : String)
    (h1 : st.isRunning = true) (h2 : st.autoReconnectEnabled = true) :
    (∀ σ ∈ restartMidStates st, σ.isRunning = false) ∧
    (∀ σ ∈ restartMidStates st, ∀ (env2 : Env) (r2 : String),
      restartSession σ env2 r2 = (σ, [])) ∧
    (∀ σ ∈ restartMidStates st, ∀ env2 : Env,
      proactiveTimerFire σ env2 = (σ, [])) ∧
    (∀ σ ∈ restartMidStates st, ∀ d : String,
      (canceledHandler σ d).2.2 = none) ∧
    countStarted (restartSession st env reason).2 ≤ 1 := by
  have hmid : ∀ σ ∈ restartMidStates st, σ.isRunning = false := by
    intro σ hσ
    simp [restartMidStates] at hσ
    rcases hσ with h | h | h <;> subst h <;> rfl
  refine ⟨hmid, ?_, ?_, ?_, ?_⟩
  · intro σ hσ env2 r2
    exact restart_noop_helper σ env2 r2 (Or.inl (hmid σ hσ))
  · intro σ hσ env2
    unfold proactiveTimerFire
    simp [hmid σ hσ]
  · intro σ hσ d
    unfold canceledHandler
    simp only [hmid σ hσ, Bool.and_false]
    split_ifs <;> first | rfl | assumption
  · unfold restartSession serviceStart
    cases htok : env.tokenOk with
    | false => simp [h1, h2, htok, countStarted, isStartedEv]
    | true =>
      cases hcon : env.connectOk with
      | false => simp [h1, h2, htok, hcon, countStarted, isStartedEv]
      | true => simp [h1, h2, htok, hcon, countStarted, isStartedEv]

/-- Witness for `restart_single_flight`: a re-entrant call at the first
suspension point is a no-op and the original restart opens one connection. -/
theorem restart_single_flight_witness :
    restartSession flightMid1 flightEnv "again" = (flightMid1, []) ∧
    countStarted (restartSession flightState flightEnv
      restartReasonProactive).2 ≤ 1 := by
  have h := restart_single_flight flightState flightEnv
    restartReasonProactive rfl rfl
  exact ⟨h.2.1 flightMid1 (by decide) flightEnv "again", h.2.2.2.2⟩

/-- C7 counterexample: when the proactive-restart timer fires on a running
session with auto-reconnect enabled and the restart succeeds, the emitted
ordering is `onSessionRestarting` → (old connection closed) →
`onSessionRestarted` → `onSessionStarted` — `onSessionRestarted` is emitted
as soon as `await this.start()` resolves, *before* the asynchronous
`startTranscribingAsync` success callback emits `onSessionStarted` — so the
claimed ordering (… → `onSessionStarted` → `onSessionRestarted`) does not
occur. -/
theorem proactive_restart_order_counterexample :
    (proactiveTimerFire flightState flightEnv).2 =
      [Ev.sessionRestarting restartReasonProactive, Ev.oldConnectionClosed,
       Ev.sessionRestarted, Ev.sessionStarted] ∧
    (proactiveTimerFire flightState flightEnv).2 ≠
      [Ev.sessionRestarting restartReasonProactive, Ev.oldConnectionClosed,
       Ev.sessionStarted, Ev.sessionRestarted] := by
  decide

/-- C7 amended: on a successful proactive restart the caller observes
`onSessionRestarting`, then the old connection is closed, then
`onSessionRestarted` (emitted once the new start is initiated), then
`onSessionStarted` (when the new connection confirms); neither
`onSessionStopped` nor `onError` is emitted on this path. -/
theorem proactive_restart_order (st : SvcState) (env : Env)
    (h1 : st.isRunning = true) (h2 : st.autoReconnectEnabled = true)
    (h3 : env.tokenOk = true) (h4 : env.connectOk = true) :
    (proactiveTimerFire st env).2 =
      [Ev.sessionRestarting restartReasonProactive, Ev.oldConnectionClosed,
       Ev.sessionRestarted, Ev.sessionStarted] ∧
    Ev.sessionStoppedEv ∉ (proactiveTimerFire st env).2 ∧
    (∀ m : String, Ev.errorEv m ∉ (proactiveTimerFire st env).2) := by
  have htr : (proactiveTimerFire st env).2 =
      [Ev.sessionRestarting restartReasonProactive, Ev.oldConnectionClosed,
       Ev.sessionRestarted, Ev.sessionStarted] := by
    unfold proactiveTimerFire restartSession serviceStart
    simp [h1, h2, h3, h4]
  refine ⟨htr, ?_, ?_⟩
  · rw [htr]; simp
  · intro m; rw [htr]; simp

/-- Witness for `proactive_restart_order` at a concrete running state and
a benign environment. -/
theorem proactive_restart_order_witness :
    (proactiveTimerFire flightState flightEnv).2 =
      [Ev.sessionRestarting restartReasonProactive, Ev.oldConnectionClosed,
       Ev.sessionRestarted, Ev.sessionStarted] ∧
    Ev.sessionStoppedEv ∉ (proactiveTimerFire flightState flightEnv).2 :=
  have h := proactive_restart_order flightState flightEnv rfl rfl rfl rfl
  ⟨h.1, h.2.1⟩

/-- C1 counterexample: the details
`"Unable to contact server. StatusCode: 1006"` are classified transient by
the code's own classification step (`isTimeoutError` is true: they contain
`"Unable to contact server"`), the session is running and auto-reconnect
is enabled — yet the `StatusCode: 1006` branch takes priority, so
`onError` is invoked and no restart is scheduled, refuting the claimed
"if and only if". -/
theorem canceled_policy_counterexample :
    isTimeoutError mixedDetails = true ∧
    flightState.isRunning = true ∧
    flightState.autoReconnectEnabled = true ∧
    (canceledHandler flightState mixedDetails).2.2 = none ∧
    (canceledHandler flightState mixedDetails).2.1 =
      [Ev.errorEv ("识别错误: " ++ mixedDetails ++
        "\n提示: WebSocket 连接失败，请检查网络连接、Token有效性和防火墙设置")] := by
  decide

/-- C1 amended: for a cancellation received while the service was running,
`onError` is suppressed and a single restart is scheduled after a fixed
1-second delay if and only if the details are timeout-like **and** do not
contain the `StatusCode: 1006` WebSocket-failure signature (which takes
priority and is surfaced as fatal) **and** auto-reconnect is enabled;
in every other case exactly one `onError` is invoked and no restart is
scheduled. -/
theorem canceled_policy (st : SvcState) (d : String)
    (hr : st.isRunning = true) :
    ((isTimeoutError d = true ∧ containsSub d "StatusCode: 1006" = false ∧
        st.autoReconnectEnabled = true) →
      canceledHandler st d =
        ({st with isRunning := false}, [],
         some ⟨restartReasonTimeout, 1000⟩)) ∧
    ((containsSub d "StatusCode: 1006" = true ∨ isTimeoutError d = false ∨
        st.autoReconnectEnabled = false) →
      (canceledHandler st d).2.2 = none ∧
      ∃ m, (canceledHandler st d).2.1 = [Ev.errorEv m]) := by
  constructor
  · rintro ⟨hT, h06, hA⟩
    unfold canceledHandler
    simp [hT, h06, hA, hr]
  · intro h
    unfold canceledHandler
    rcases h with h | h | h
    · simp [h]
    · simp [h, hr]
      split_ifs <;> simp
    · simp [h, hr]
      split_ifs <;> simp

/-- Witness for `canceled_policy`: a purely timeout-like cancellation on a
running, auto-reconnect-enabled session self-heals. -/
theorem canceled_policy_witness :
    canceledHandler flightState timeoutDetails =
      ({flightState with isRunning := false}, [],
       some ⟨restartReasonTimeout, 1000⟩) :=
  (canceled_policy flightState timeoutDetails rfl).1
    ⟨by decide, by decide, rfl⟩

/-- C9 counterexample: `jsonShadowRes` carries no first-class speaker
field, a parseable `json` payload with no identifier fields, and a
`privResult` whose `SpeakerId` *does* yield an identifier — yet
`extractSpeakerId` returns `null`: once a `json` payload is present the
private-result path is never tried, so an available identifier is lost,
refuting the claimed three-step fall-through. -/
theorem extract_priority_counterexample :
    extractSpeakerId jsonShadowRes = none ∧
    jsonShadowRes.privResult = some privDemo ∧
    privChain privDemo = some "Guest-9" := by
  decide

/-- C9 amended: `extractSpeakerId` is total — every result shape yields an
answer, an internal parse failure degrades to `null` — and resolves in
this priority order: a truthy first-class `userId` wins, else a truthy
first-class `speakerId`; else, when a `json` payload is present, its
parsed fields alone decide (`null` on parse failure), and the
`privResult` fields are consulted only when no `json` payload exists;
with no source left the result is `null`. -/
theorem extract_priority (r : RecResult) :
    (truthyStr r.userId = true → extractSpeakerId r = r.userId) ∧
    (truthyStr r.userId = false → truthyStr r.speakerId = true →
      extractSpeakerId r = r.speakerId) ∧
    (∀ (jp : JsonParse) (p : Option SpkFields), r.json = some jp →
      extractSpeakerId {r with privResult := p} = extractSpeakerId r) ∧
    (truthyStr r.userId = false → truthyStr r.speakerId = false →
      (∀ j, r.json = some (JsonParse.obj j) →
        extractSpeakerId r = jsonChain j) ∧
      (r.json = some JsonParse.unparsable → extractSpeakerId r = none) ∧
      (r.json = none → ∀ p, r.privResult = some p →
        extractSpeakerId r = privChain p) ∧
      (r.json = none → r.privResult = none →
        extractSpeakerId r = none)) := by
  refine ⟨?_, ?_, ?_, ?_⟩
  · intro hu
    simp [extractSpeakerId, jsOr, hu]
  · intro hu hs
    simp [extractSpeakerId, jsOr, hu, hs]
  · intro jp p hj
    cases hu : truthyStr r.userId <;> cases hs : truthyStr r.speakerId <;>
      cases jp <;> simp [extractSpeakerId, hu, hs, hj]
  · intro hu hs
    refine ⟨?_, ?_, ?_, ?_⟩
    · intro j hj
      simp [extractSpeakerId, hu, hs, hj]
    · intro hj
      simp [extractSpeakerId, hu, hs, hj]
    · intro hj p hp
      simp [extractSpeakerId, hu, hs, hj, hp]
    · intro hj hp
      simp [extractSpeakerId, hu, hs, hj, hp]

/-- Witness for `extract_priority`: with a `json` payload present, the
extraction result is independent of `privResult`. -/
theorem extract_priority_witness :
    extractSpeakerId {jsonShadowRes with privResult := none} =
      extractSpeakerId jsonShadowRes ∧
    extractSpeakerId jsonShadowRes = none :=
  ⟨(extract_priority jsonShadowRes).2.2.1 (JsonParse.obj noneFields) none rfl,
   (((extract_priority jsonShadowRes).2.2.2 rfl rfl).1 noneFields rfl).trans
     (by decide)⟩
